import Mathlib

/-! Verification development for the `widget` browser-automation test harness.

The definitions below are a shallow embedding of the repository's network
monitoring and response-handling code:

  * `src/tests/utils/ApiMonitor.ts` (class `ApiMonitor`): the monitor
    registry, the global request/response listeners, `waitForResponse`,
    `cleanupMonitor` and `processBroadcastResponse`;
  * `src/unnamed/part_002` (`tests/utils/ApiResponseHandler.ts`):
    `recordApiResponse`, `hasNoRoutesFoundError`, `handleRouteApiResponse`;
  * `src/tests/pages/AppPage.ts`: `handleSimulateRpcResponse`,
    `finalizeResult` and the `performBridgeOperation` pipeline control flow.

JavaScript dynamic values are modelled by the `JsonVal` type; JavaScript
truthiness, `typeof`, strict equality with literals, `JSON.parse`,
`JSON.stringify`, `atob` and string coercion are each given an executable
model.  Machine time (`Date.now()`) is passed in as an explicit `Int`
parameter.  The number fragment of the JSON model is integer-valued (no
claim in scope involves fractional numbers), and `\u` escapes are not part
of the modelled `JSON.parse` fragment.
-/

mutual

/-- Model of a JavaScript/JSON dynamic value.  `arr`/`obj` use the mutual
spine types `JsonArr`/`JsonObj` so that recursion over values is structural. -/
inductive JsonVal where
  | null : JsonVal
  | bool (b : Bool) : JsonVal
  | num (n : Int) : JsonVal
  | str (s : String) : JsonVal
  | arr (xs : JsonArr) : JsonVal
  | obj (fs : JsonObj) : JsonVal

/-- Spine of a JSON array. -/
inductive JsonArr where
  | nil : JsonArr
  | cons (hd : JsonVal) (tl : JsonArr) : JsonArr

/-- Spine of a JSON object: an ordered field list, as in a JS object literal. -/
inductive JsonObj where
  | nil : JsonObj
  | cons (key : String) (val : JsonVal) (tl : JsonObj) : JsonObj

end

/-- JavaScript truthiness of a value. -/
def jsTruthy : JsonVal → Bool
  | .null => false
  | .bool b => b
  | .num n => n != 0
  | .str s => s != ""
  | .arr _ => true
  | .obj _ => true

/-- Truthiness of a possibly-absent (`undefined`) value. -/
def jsTruthyOpt : Option JsonVal → Bool
  | none => false
  | some v => jsTruthy v

/-- JavaScript `typeof` (note `typeof null === "object"`). -/
def jsTypeof : JsonVal → String
  | .null => "object"
  | .bool _ => "boolean"
  | .num _ => "number"
  | .str _ => "string"
  | .arr _ => "object"
  | .obj _ => "object"

/-- `typeof` of a possibly-absent value (`typeof undefined === "undefined"`). -/
def jsTypeofOpt : Option JsonVal → String
  | none => "undefined"
  | some v => jsTypeof v

/-- Field lookup on an object spine (first binding wins, as in parsed JSON). -/
def objLookup : JsonObj → String → Option JsonVal
  | .nil, _ => none
  | .cons k v tl, key => if k == key then some v else objLookup tl key

/-- JavaScript member access `v.key`: `undefined` unless `v` is an object
with that field. -/
def getField : JsonVal → String → Option JsonVal
  | .obj fs, key => objLookup fs key
  | _, _ => none

/-- Strict equality `v === lit` for a string literal `lit`. -/
def isStrVal : Option JsonVal → String → Bool
  | some (.str t), s => t == s
  | _, _ => false

/-- Strict equality `v === lit` for an integer literal `lit`. -/
def isNumVal : Option JsonVal → Int → Bool
  | some (.num m), n => m == n
  | _, _ => false

/-- Strict equality `status === n` for the optional numeric `status` field of
an API result. -/
def statusIs : Option Int → Int → Bool
  | some s, n => s == n
  | none, _ => false

/-- The `{` character, written by code point to keep braces out of literals. -/
def lBraceC : Char := Char.ofNat 123

/-- The `}` character. -/
def rBraceC : Char := Char.ofNat 125

/-- The one-character string `"{"`. -/
def lBraceS : String := String.mk [lBraceC]

/-- The one-character string `"}"`. -/
def rBraceS : String := String.mk [rBraceC]

/-- Does `needle` occur as a contiguous substring of `hay` (JS
`String.prototype.includes`)?  Defined directly on character lists. -/
def hasSubCh (hay needle : List Char) : Bool :=
  match hay with
  | [] => needle.isEmpty
  | _ :: rest => needle.isPrefixOf hay || hasSubCh rest needle

/-- JS `s.includes t`. -/
def hasSubStr (s t : String) : Bool := hasSubCh s.data t.data

/-- Skip JSON whitespace. -/
def skipWs : List Char → List Char
  | [] => []
  | c :: rest =>
    if c == ' ' || c == '\t' || c == '\n' || c == '\r' then skipWs rest
    else c :: rest

/-- Is `c` an ASCII digit? -/
def isDigitCh (c : Char) : Bool := '0' ≤ c && c ≤ '9'

/-- Split off a maximal run of leading digits. -/
def takeDigits : List Char → List Char × List Char
  | [] => ([], [])
  | c :: rest =>
    if isDigitCh c then
      let p := takeDigits rest
      (c :: p.1, p.2)
    else ([], c :: rest)

/-- Decimal value of a digit run. -/
def digitsToNat (ds : List Char) : Nat :=
  ds.foldl (fun acc c => acc * 10 + (c.toNat - 48)) 0

/-- Match an exact literal suffix (used for `null`, `true`, `false`). -/
def pLit : List Char → List Char → Option (List Char)
  | [], cs => some cs
  | _, [] => none
  | e :: es, c :: cs => if c == e then pLit es cs else none

/-- Parse the body of a JSON string after its opening quote; returns the
character content and the rest of the input.  The escapes handled are the
single-character ones JSON.parse accepts (minus `\u`). -/
def pQuoted : List Char → Option (List Char × List Char)
  | [] => none
  | c :: rest =>
    if c == '"' then some ([], rest)
    else if c == '\\' then
      match rest with
      | [] => none
      | e :: rest2 =>
        let esc : Option Char :=
          if e == '"' then some '"'
          else if e == '\\' then some '\\'
          else if e == '/' then some '/'
          else if e == 'n' then some '\n'
          else if e == 't' then some '\t'
          else if e == 'r' then some '\r'
          else if e == 'b' then some (Char.ofNat 8)
          else if e == 'f' then some (Char.ofNat 12)
          else none
        match esc with
        | some ch =>
          match pQuoted rest2 with
          | some (s, r) => some (ch :: s, r)
          | none => none
        | none => none
    else
      match pQuoted rest with
      | some (s, r) => some (c :: s, r)
      | none => none

/-- Parse a JSON integer (sign and digits; inputs with a fractional or
exponent part are outside the modelled fragment and are rejected). -/
def pNumber (cs : List Char) : Option (Int × List Char) :=
  let core : List Char → Option (Nat × List Char) := fun cs2 =>
    let p := takeDigits cs2
    if p.1.isEmpty then none
    else
      match p.2 with
      | c :: _ => if c == '.' || c == 'e' || c == 'E' then none else some (digitsToNat p.1, p.2)
      | [] => some (digitsToNat p.1, p.2)
  match cs with
  | '-' :: rest =>
    match core rest with
    | some (n, r) => some (-(Int.ofNat n), r)
    | none => none
  | _ =>
    match core cs with
    | some (n, r) => some (Int.ofNat n, r)
    | none => none

/-- Intermediate result of the recursive-descent JSON parser. -/
inductive PRes where
  | v (x : JsonVal)
  | arrRest (xs : JsonArr)
  | objRest (fs : JsonObj)

/-- Which production the parser is working on. -/
inductive PKind where
  | val
  | arrRest
  | objRest

/-- Fuel-indexed recursive-descent parser for the JSON fragment; structural
on the fuel so concrete parses reduce definitionally. -/
def parseStep : Nat → PKind → List Char → Option (PRes × List Char)
  | 0, _, _ => none
  | Nat.succ f, PKind.val, cs =>
    match skipWs cs with
    | [] => none
    | c :: rest =>
      if c == 'n' then
        match pLit ['u', 'l', 'l'] rest with
        | some r => some (PRes.v .null, r)
        | none => none
      else if c == 't' then
        match pLit ['r', 'u', 'e'] rest with
        | some r => some (PRes.v (.bool true), r)
        | none => none
      else if c == 'f' then
        match pLit ['a', 'l', 's', 'e'] rest with
        | some r => some (PRes.v (.bool false), r)
        | none => none
      else if c == '"' then
        match pQuoted rest with
        | some (s, r) => some (PRes.v (.str (String.mk s)), r)
        | none => none
      else if c == '-' || isDigitCh c then
        match pNumber (c :: rest) with
        | some (n, r) => some (PRes.v (.num n), r)
        | none => none
      else if c == '[' then
        match skipWs rest with
        | ']' :: r2 => some (PRes.v (.arr .nil), r2)
        | cs2 =>
          match parseStep f PKind.arrRest cs2 with
          | some (PRes.arrRest xs, r) => some (PRes.v (.arr xs), r)
          | _ => none
      else if c == lBraceC then
        match skipWs rest with
        | c2 :: r2 =>
          if c2 == rBraceC then some (PRes.v (.obj .nil), r2)
          else
            match parseStep f PKind.objRest (c2 :: r2) with
            | some (PRes.objRest fs, r) => some (PRes.v (.obj fs), r)
            | _ => none
        | [] => none
      else none
  | Nat.succ f, PKind.arrRest, cs =>
    match parseStep f PKind.val cs with
    | some (PRes.v x, r) =>
      (match skipWs r with
       | ',' :: r2 =>
         match parseStep f PKind.arrRest r2 with
         | some (PRes.arrRest xs, r3) => some (PRes.arrRest (.cons x xs), r3)
         | _ => none
       | ']' :: r2 => some (PRes.arrRest (.cons x .nil), r2)
       | _ => none)
    | _ => none
  | Nat.succ f, PKind.objRest, cs =>
    match skipWs cs with
    | [] => none
    | c :: rest =>
      if c == '"' then
        match pQuoted rest with
        | some (kcs, r) =>
          (match skipWs r with
           | ':' :: r2 =>
             match parseStep f PKind.val r2 with
             | some (PRes.v x, r3) =>
               (match skipWs r3 with
                | ',' :: r4 =>
                  (match parseStep f PKind.objRest r4 with
                   | some (PRes.objRest fs, r5) =>
                     some (PRes.objRest (.cons (String.mk kcs) x fs), r5)
                   | _ => none)
                | c5 :: r4 =>
                  if c5 == rBraceC then some (PRes.objRest (.cons (String.mk kcs) x .nil), r4)
                  else none
                | [] => none)
             | _ => none
           | _ => none)
        | none => none
      else none

/-- Model of `JSON.parse`: `some v` on success, `none` when JSON.parse would
throw (the whole input, up to whitespace, must be one value). -/
def parseJson (s : String) : Option JsonVal :=
  match parseStep (2 * s.length + 8) PKind.val s.data with
  | some (PRes.v x, r) => if (skipWs r).isEmpty then some x else none
  | _ => none

/-- Escape one character as inside a JSON.stringify string literal. -/
def escChar (c : Char) : List Char :=
  if c == '"' then ['\\', '"']
  else if c == '\\' then ['\\', '\\']
  else if c == '\n' then ['\\', 'n']
  else if c == '\t' then ['\\', 't']
  else if c == '\r' then ['\\', 'r']
  else [c]

/-- A JSON string literal for `s` (quotes plus escaping). -/
def quoteJson (s : String) : String :=
  "\"" ++ String.mk (s.data.foldr (fun c acc => escChar c ++ acc) []) ++ "\""

mutual

/-- Model of `JSON.stringify` on the JSON value fragment. -/
def stringify : JsonVal → String
  | .null => "null"
  | .bool true => "true"
  | .bool false => "false"
  | .num n => toString n
  | .str s => quoteJson s
  | .arr xs => "[" ++ stringifyArr xs ++ "]"
  | .obj fs => lBraceS ++ stringifyObj fs ++ rBraceS

/-- Comma-joined stringification of array elements. -/
def stringifyArr : JsonArr → String
  | .nil => ""
  | .cons x .nil => stringify x
  | .cons x (.cons y tl) => stringify x ++ "," ++ stringifyArr (.cons y tl)

/-- Comma-joined stringification of object fields. -/
def stringifyObj : JsonObj → String
  | .nil => ""
  | .cons k v .nil => quoteJson k ++ ":" ++ stringify v
  | .cons k v (.cons k2 v2 tl) =>
    quoteJson k ++ ":" ++ stringify v ++ "," ++ stringifyObj (.cons k2 v2 tl)

end

mutual

/-- JavaScript string coercion of a value, as in a template literal. -/
def jsDisplay : JsonVal → String
  | .null => "null"
  | .bool true => "true"
  | .bool false => "false"
  | .num n => toString n
  | .str s => s
  | .arr xs => jsDisplayArr xs
  | .obj _ => "[object Object]"

/-- Array-to-string coercion: elements joined by commas. -/
def jsDisplayArr : JsonArr → String
  | .nil => ""
  | .cons x .nil => jsDisplay x
  | .cons x (.cons y tl) => jsDisplay x ++ "," ++ jsDisplayArr (.cons y tl)

end

/-- String coercion of a possibly-absent value (`undefined` prints as such). -/
def jsDisplayOpt : Option JsonVal → String
  | none => "undefined"
  | some v => jsDisplay v

/-- Value of one base64 alphabet character. -/
def b64Val (c : Char) : Option Nat :=
  if 'A' ≤ c && c ≤ 'Z' then some (c.toNat - 65)
  else if 'a' ≤ c && c ≤ 'z' then some (c.toNat - 97 + 26)
  else if isDigitCh c then some (c.toNat - 48 + 52)
  else if c == '+' then some 62
  else if c == '/' then some 63
  else none

/-- Decode a padding-stripped base64 character run into bytes; `none` when
`atob` would throw (bad character or a length remainder of 1). -/
def b64Decode : List Char → Option (List Char)
  | [] => some []
  | [_] => none
  | [a, b] =>
    match b64Val a, b64Val b with
    | some v1, some v2 => some [Char.ofNat ((v1 * 4 + v2 / 16) % 256)]
    | _, _ => none
  | [a, b, c] =>
    match b64Val a, b64Val b, b64Val c with
    | some v1, some v2, some v3 =>
      some [Char.ofNat ((v1 * 4 + v2 / 16) % 256), Char.ofNat (((v2 % 16) * 16 + v3 / 4) % 256)]
    | _, _, _ => none
  | a :: b :: c :: d :: rest =>
    match b64Val a, b64Val b, b64Val c, b64Val d, b64Decode rest with
    | some v1, some v2, some v3, some v4, some tail =>
      some ([Char.ofNat ((v1 * 4 + v2 / 16) % 256),
             Char.ofNat (((v2 % 16) * 16 + v3 / 4) % 256),
             Char.ofNat (((v3 % 4) * 64 + v4) % 256)] ++ tail)
    | _, _, _, _, _ => none

/-- Model of `atob`: decode after stripping trailing padding. -/
def atob (s : String) : Option String :=
  match b64Decode (s.data.takeWhile (fun c => !(c == '='))) with
  | some bytes => some (String.mk bytes)
  | none => none

/-- The test `/^[A-Za-z0-9+/=]+$/.test s` used before `atob` in
`handleSimulateRpcResponse`. -/
def isBase64Shaped (s : String) : Bool :=
  !(s == "") && s.data.all (fun c => (b64Val c).isSome || c == '=')

/-- Take characters up to and including the first `}` (the tail of the
`/error[^}]*}/i` regex). -/
def fragToBrace : List Char → Option (List Char)
  | [] => none
  | c :: rest =>
    if c == rBraceC then some [c]
    else
      match fragToBrace rest with
      | some t => some (c :: t)
      | none => none

/-- First match of the regex `/error[^}]*}/` in an already-lowercased
character list. -/
def errorFragment : List Char → Option String
  | [] => none
  | c :: rest =>
    if ['e', 'r', 'r', 'o', 'r'].isPrefixOf (c :: rest) then
      match fragToBrace (c :: rest) with
      | some t => some (String.mk t)
      | none => none
    else errorFragment rest

/-- ASCII lowercase of one character. -/
def lowerCh (c : Char) : Char :=
  if 'A' ≤ c && c ≤ 'Z' then Char.ofNat (c.toNat + 32) else c

/-- Model of `String.prototype.toLowerCase` on the ASCII fragment. -/
def strToLower (s : String) : String := String.mk (s.data.map lowerCh)

/-- JS `Map.prototype.set`: overwrite in place or append at the end. -/
def aset {ν : Type} (l : List (String × ν)) (k : String) (v : ν) : List (String × ν) :=
  match l with
  | [] => [(k, v)]
  | (k', v') :: rest => if k' == k then (k, v) :: rest else (k', v') :: aset rest k v

/-- JS `Map.prototype.delete`. -/
def adelete {ν : Type} (l : List (String × ν)) (k : String) : List (String × ν) :=
  l.filter (fun p => !(p.1 == k))

/-- Monitor options after merging with the defaults of the `startMonitoring*`
methods of `ApiMonitor` (`oneTime`, `verbose`, `silentTimeout`,
`partialMatch` default `false`; `timeout` in milliseconds). -/
structure MonitorOptions where
  oneTime : Bool := false
  verbose : Bool := false
  timeout : Nat := 0
  silentTimeout : Bool := false
  partialMatch : Bool := false

instance : Inhabited MonitorOptions := ⟨{}⟩

/-- `ApiMonitor.pathMatches`: exact equality, or substring containment when
`partialMatch` is set; a null/empty target or monitor path never matches. -/
def pathMatches (targetPath monitorPath : String) (options : MonitorOptions) : Bool :=
  if targetPath == "" || monitorPath == "" then false
  else if options.partialMatch then hasSubStr targetPath monitorPath
  else targetPath == monitorPath

/-- One record of `capturedRequests` in `ApiMonitor` (url, method, timestamp,
plus the parsed body and rpc echo recorded for matching POST requests). -/
structure CapturedReqEntry where
  url : String
  method : String
  timestamp : Int
  body : Option JsonVal
  rpc : Option JsonVal

/-- A request observed by the `page.on('request')` listener. -/
structure ReqEvent where
  url : String
  method : String
  postData : Option String

/-- The `page.on('request')` callback of `setupGlobalRequestListener`,
acting on the `capturedRequests` map.  `monitorPaths`, `monitorOptions` and
`monitorMethods` are the registry maps the callback reads.  POST bodies that
are absent, empty, or not parseable as JSON leave the `try` block through its
`catch` and record nothing beyond the global `all` log; a parsed RPC-shaped
body is matched by method name and `params.path`, and any other parsed body
by plain URL matching. -/
def requestListenerStep
    (monitorPaths : List (String × String))
    (monitorOptions : List (String × MonitorOptions))
    (monitorMethods : List (String × String))
    (captured : List (String × List CapturedReqEntry))
    (ev : ReqEvent) (now : Int) : List (String × List CapturedReqEntry) :=
  let captured := aset captured "all"
    (((List.lookup "all" captured).getD []) ++ [⟨ev.url, ev.method, now, none, none⟩])
  if ev.method == "POST" then
    match ev.postData with
    | none => captured
    | some pd =>
      if pd == "" then captured
      else
        match parseJson pd with
        | none => captured
        | some jsonBody =>
          let isRpcRequest := isStrVal (getField jsonBody "jsonrpc") "2.0" ||
            (jsTruthyOpt (getField jsonBody "method") &&
             jsTypeofOpt (getField jsonBody "params") == "object")
          if isRpcRequest then
            monitorPaths.foldl (fun acc p =>
              let monitorId := p.1
              let paramPath := p.2
              let options := (List.lookup monitorId monitorOptions).getD {}
              let methodMatches :=
                match List.lookup monitorId monitorMethods with
                | some m => !(m == "") && isStrVal (getField jsonBody "method") m
                | none => false
              let pathOk := !(paramPath == "") && jsTruthyOpt (getField jsonBody "params") &&
                (match getField jsonBody "params" with
                 | some params =>
                   (match getField params "path" with
                    | some (.str s) => if s == "" then false else pathMatches s paramPath options
                    | _ => false)
                 | none => false)
              if methodMatches && pathOk then
                aset acc monitorId
                  (((List.lookup monitorId acc).getD []) ++
                   [⟨ev.url, ev.method, now, some jsonBody, some jsonBody⟩])
              else acc) captured
          else
            monitorPaths.foldl (fun acc p =>
              let options := (List.lookup p.1 monitorOptions).getD {}
              if pathMatches ev.url p.2 options then
                aset acc p.1
                  (((List.lookup p.1 acc).getD []) ++
                   [⟨ev.url, ev.method, now, some jsonBody, none⟩])
              else acc) captured
  else
    monitorPaths.foldl (fun acc p =>
      let options := (List.lookup p.1 monitorOptions).getD {}
      if pathMatches ev.url p.2 options then
        aset acc p.1
          (((List.lookup p.1 acc).getD []) ++ [⟨ev.url, ev.method, now, none, none⟩])
      else acc) captured

/-- The flag state of one monitor's `PromiseController` together with its
presence in `monitorPromises` (`present := false` after `cleanupMonitor`
deletes the entry, making `monitorPromises.get(monitorId)` undefined). -/
structure ControllerFlags where
  present : Bool
  isResolved : Bool
  isRejected : Bool

/-- The events that may touch one monitor's controller, each guarded in the
source by `controller && !controller.isResolved && !controller.isRejected`:
a matching traffic event seen by the response listener (resolves only for
`oneTime` monitors), the fulfilment or failure callback of
`page.waitForResponse`, the timeout timer of `startMonitoring*`, and the
registry cleanup that deletes the controller. -/
inductive MonitorEvent where
  | trafficMatch
  | pwWaitSuccess
  | pwWaitFailure
  | timeoutFire
  | cleanupEvt

/-- One event against one controller; the returned `Bool` records whether
this event settled (resolved or rejected) the monitor's promise. -/
def settleStep (oneTime : Bool) (s : ControllerFlags) : MonitorEvent → ControllerFlags × Bool
  | .trafficMatch =>
    if oneTime && s.present && !s.isResolved && !s.isRejected then
      ({ s with isResolved := true }, true)
    else (s, false)
  | .pwWaitSuccess =>
    if s.present && !s.isResolved && !s.isRejected then
      ({ s with isResolved := true }, true)
    else (s, false)
  | .pwWaitFailure =>
    if s.present && !s.isResolved && !s.isRejected then
      ({ s with isRejected := true }, true)
    else (s, false)
  | .timeoutFire =>
    if s.present && !s.isResolved && !s.isRejected then
      ({ s with isRejected := true }, true)
    else (s, false)
  | .cleanupEvt => ({ s with present := false }, false)

/-- Run a sequence of controller events, counting how many of them settled
the promise. -/
def runEvents (oneTime : Bool) : ControllerFlags → List MonitorEvent → ControllerFlags × Nat
  | s, [] => (s, 0)
  | s, e :: es =>
    let p := settleStep oneTime s e
    let q := runEvents oneTime p.1 es
    (q.1, (if p.2 then 1 else 0) + q.2)

/-- The controller state of a freshly registered monitor (Pending). -/
def initController : ControllerFlags := ⟨true, false, false⟩

/-- A monitor's `PromiseController` as stored in `monitorPromises` (the
resolve/reject closures have no registry-visible state beyond the flags;
`timeoutId` is the handle of the monitor's timeout timer if one was set). -/
structure Controller where
  isResolved : Bool
  isRejected : Bool
  timeoutId : Option Nat

/-- The registry maps of `ApiMonitor`, plus the set of live timer handles
(a timer leaves `activeTimers` when `clearTimeout` is called on it). -/
structure Registry where
  monitorPromises : List (String × Controller)
  monitorStartTimes : List (String × Int)
  monitorPaths : List (String × String)
  monitorOptions : List (String × MonitorOptions)
  monitorMethods : List (String × String)
  activeTimers : List Nat

/-- `ApiMonitor.cleanupMonitor`: clear the monitor's timeout timer and delete
its entries from the five registry maps (capture records are kept). -/
def cleanupMonitor (reg : Registry) (id : String) : Registry :=
  let timers :=
    match List.lookup id reg.monitorPromises with
    | some c =>
      match c.timeoutId with
      | some tid => reg.activeTimers.filter (fun t => !(t == tid))
      | none => reg.activeTimers
    | none => reg.activeTimers
  { monitorPromises := adelete reg.monitorPromises id
    monitorStartTimes := adelete reg.monitorStartTimes id
    monitorPaths := adelete reg.monitorPaths id
    monitorOptions := adelete reg.monitorOptions id
    monitorMethods := adelete reg.monitorMethods id
    activeTimers := timers }

/-- A JavaScript error value as far as `waitForResponse` inspects one:
its `message`, and the `isTimeout` mark the timeout paths attach. -/
structure JsError where
  message : String
  isTimeout : Bool

/-- A Playwright response as far as `waitForResponse` reads one on its
success path: url, status, request method, the result of `response.json()`
(`none` when that call throws), the `response.text()` fallback, and the
request's post data. -/
structure CapturedResp where
  url : String
  status : Int
  reqMethod : String
  jsonBody : Option JsonVal
  textBody : String
  postData : Option String

/-- What the awaited race inside `waitForResponse` produced: a captured
response, or a rejection (monitor timeout, external wait timeout, or another
error). -/
inductive WaitOutcome where
  | captured (r : CapturedResp)
  | failed (e : JsError)

/-- The `ApiResponseResult` record returned by `waitForResponse`
(`none` encodes a field left `undefined`). -/
structure ApiResponseResultL where
  success : Bool
  data : Option JsonVal
  responseTime : Int
  error : Option String
  url : Option String
  status : Option Int
  method : Option String
  requestId : Option JsonVal
  timedOut : Option Bool

/-- `ApiMonitor.waitForResponse` as a state transformer on the registry.
If the monitor id is unknown it returns the "does not exist" result and
leaves the registry untouched; otherwise it consumes the race `outcome`,
always calls `cleanupMonitor` before returning, and never throws. -/
def waitForResponse (reg : Registry) (id : String) (outcome : WaitOutcome) (now : Int) :
    ApiResponseResultL × Registry :=
  match List.lookup id reg.monitorPromises with
  | none =>
    ({ success := false, data := none, responseTime := 0
       error := some ("Monitor " ++ id ++ " does not exist")
       url := none, status := none, method := none, requestId := none, timedOut := none }, reg)
  | some _ =>
    let startTime : Int :=
      match List.lookup id reg.monitorStartTimes with
      | some t => if t == 0 then now else t
      | none => now
    match outcome with
    | .captured resp =>
      let responseTime := now - startTime
      let requestBody : Option JsonVal :=
        if resp.reqMethod == "POST" then
          match resp.postData with
          | some pd => parseJson pd
          | none => none
        else none
      let responseData : JsonVal :=
        match resp.jsonBody with
        | some j => j
        | none => .str resp.textBody
      let requestId : Option JsonVal :=
        if resp.reqMethod == "POST" then
          match resp.jsonBody with
          | some j =>
            if jsTruthy j && (getField j "id").isSome && jsTruthyOpt requestBody then
              getField j "id"
            else none
          | none => none
        else none
      ({ success := true, data := some responseData, responseTime := responseTime
         error := none, url := some resp.url, status := some resp.status
         method := some resp.reqMethod, requestId := requestId, timedOut := some false },
       cleanupMonitor reg id)
    | .failed e =>
      let waitedTime := now - startTime
      let isTimeout := e.isTimeout ||
        (!(e.message == "") && (hasSubStr e.message "timeout" || hasSubStr e.message "timed out"))
      let errorMessage := if e.message == "" then "Unknown error" else e.message
      ({ success := false, data := none, responseTime := waitedTime
         error := some errorMessage, url := none, status := none, method := none
         requestId := none, timedOut := some isTimeout },
       cleanupMonitor reg id)

/-- Truthiness of an optional string (JS: `undefined` and `""` are falsy). -/
def optStrTruthy : Option String → Bool
  | none => false
  | some s => s != ""

/-- JS `a || b` for an optional numeric field with default `0`
(`undefined || 0` and `0 || 0` both give `0`). -/
def intOrZero (o : Option Int) : Int := o.getD 0

/-- The fields of the dynamic `apiResult` / `rpcResult` argument that the
response handlers and `processBroadcastResponse` read from an
`ApiResponseResult`. -/
structure ApiResultIn where
  success : Bool
  data : Option JsonVal
  status : Option Int
  method : Option String
  responseTime : Option Int
  error : Option String

/-- One `ApiResponseRecord` (see `BridgeInterfaces.ts`). -/
structure RespRecord where
  endpoint : String
  method : String
  status : Int
  success : Bool
  data : Option JsonVal
  timestamp : Int
  responseTime : Int

/-- The `timing` aggregate of a `BridgeOperationOutput`. -/
structure TimingInfo where
  startTime : Int
  endTime : Int
  duration : Int

/-- The fields of `BridgeOperationOutput` that the modelled code reads or
writes (`none` encodes an absent/undefined optional field). -/
structure BridgeOutput where
  success : Option Bool
  transactionHash : Option JsonVal
  error : Option String
  testProgress : Option String
  routePass : Option Bool
  apiResponses : List (String × RespRecord)
  timing : TimingInfo
  screenshots : List String

/-- `ApiResponseHandler.recordApiResponse`: build an `ApiResponseRecord`
from the api result (with the `||` defaults of the source) and store it
under `responseKey`. -/
def recordApiResponse (r : BridgeOutput) (a : ApiResultIn) (responseKey endpoint : String)
    (now : Int) : BridgeOutput :=
  let record : RespRecord :=
    { endpoint := endpoint
      method := match a.method with
        | some m => if m == "" then "POST" else m
        | none => "POST"
      status := intOrZero a.status
      success := a.success
      data := if jsTruthyOpt a.data then a.data else none
      timestamp := now
      responseTime := intOrZero a.responseTime }
  { r with apiResponses := aset r.apiResponses responseKey record }

/-- The body condition of `hasNoRoutesFoundError`: the data is truthy and is
either an object whose `message` is `"no routes found"` (possibly together
with `code === 5`) or a string containing `"no routes found"`. -/
def noRoutesBody : Option JsonVal → Bool
  | none => false
  | some d =>
    jsTruthy d &&
    ((jsTypeof d == "object" &&
       (isStrVal (getField d "message") "no routes found" ||
        (isNumVal (getField d "code") 5 && isStrVal (getField d "message") "no routes found"))) ||
     (match d with
      | .str s => hasSubStr s "no routes found"
      | _ => false))

/-- `ApiResponseHandler.hasNoRoutesFoundError`: status 404 or a failed
result, together with the "no routes found" body shape. -/
def hasNoRoutesFoundError (a : ApiResultIn) : Bool :=
  (statusIs a.status 404 || !a.success) && noRoutesBody a.data

/-- `ApiResponseHandler.handleRouteApiResponse`: record the response, treat
any non-201 status as an error (normalising the "no routes found" shape to
that literal string), scan 201 responses with object data for the
substrings `"error"`/`"Error"`, and otherwise mark the route test passed.
Returns `(shouldAbort, updated result)`. -/
def handleRouteApiResponse (r : BridgeOutput) (a : ApiResultIn) (now : Int) :
    Bool × BridgeOutput :=
  let r := recordApiResponse r a "route" "/v2/fungible/route" now
  if !(statusIs a.status 201) then
    let errorMessage :=
      match a.data with
      | some d =>
        if jsTruthy d then
          match d with
          | .str s =>
            (match parseJson s with
             | some parsed => stringify parsed
             | none => s)
          | _ => if jsTypeof d == "object" then stringify d else ""
        else ""
      | none => ""
    let errorMessage :=
      if errorMessage == "" then
        "Route API request failed, status code: " ++
          (match a.status with
           | some n => toString n
           | none => "undefined")
      else errorMessage
    let errorMessage := if hasNoRoutesFoundError a then "no routes found" else errorMessage
    (true, { r with error := some errorMessage, testProgress := some "routeTested",
                    routePass := some false })
  else
    if jsTruthyOpt a.data && jsTypeofOpt a.data == "object" then
      let dataStr := stringify ((a.data).getD .null)
      if hasSubStr dataStr "error" || hasSubStr dataStr "Error" then
        (true, { r with error := some dataStr, testProgress := some "routeTested",
                        routePass := some false })
      else
        (false, { r with testProgress := some "routeTested", routePass := some true })
    else
      (false, { r with testProgress := some "routeTested", routePass := some true })

/-- The result record of `ApiMonitor.processBroadcastResponse`. -/
structure BroadcastOut where
  success : Bool
  hash : Option JsonVal
  error : Option String

/-- `ApiMonitor.processBroadcastResponse`: fail when the response was not
captured or has no truthy `result` field; succeed exactly when
`result.code === 0` (extracting a truthy `result.hash`); otherwise fail with
`result.log` (default `"Unknown error"`). -/
def processBroadcastResponse (a : ApiResultIn) : BroadcastOut :=
  if !a.success || !(jsTruthyOpt a.data) then
    { success := false, hash := none
      error := some (match a.error with
        | some e => if e == "" then "Failed to get response" else e
        | none => "Failed to get response") }
  else
    let responseData := (a.data).getD .null
    if !(jsTruthyOpt (getField responseData "result")) then
      { success := false, hash := none, error := some "No result field in response" }
    else
      let resultVal := (getField responseData "result").getD .null
      let code := getField resultVal "code"
      if isNumVal code 0 then
        let hash := getField resultVal "hash"
        if jsTruthyOpt hash then
          { success := true, hash := hash, error := none }
        else
          { success := true, hash := none, error := none }
      else
        let log := getField resultVal "log"
        let logText := if jsTruthyOpt log then jsDisplayOpt log else "Unknown error"
        { success := false, hash := none
          error := some ("Transaction failed (code=" ++ jsDisplayOpt code ++ "): " ++ logText) }

/-- The broadcast-handling block of `AppPage.handleTransactionConfirmation`
(lines 798-825): on a captured broadcast response, apply
`processBroadcastResponse`; on its success store a truthy hash and mark the
operation successful, on its failure record the error and stop; an
uncaptured broadcast response continues the flow unchanged. -/
def applyBroadcastResult (r : BridgeOutput) (broadcast : ApiResultIn) : Bool × BridgeOutput :=
  if broadcast.success then
    let tx := processBroadcastResponse broadcast
    if tx.success then
      let r :=
        match tx.hash with
        | some h => if jsTruthy h then { r with transactionHash := some h } else r
        | none => r
      (true, { r with success := some true })
    else
      (false, { r with error := tx.error, success := some false })
  else (true, r)

/-- The options argument of `AppPage.finalizeResult`. -/
structure FinalizeOptions where
  success : Option Bool
  testProgress : Option String
  routePass : Option Bool

/-- `AppPage.finalizeResult`.  The source mutates `result` in a fixed order;
here each field's final value is computed along that same order:
timing is stamped first (`startTime || Date.now()`, `endTime = now`,
`duration = endTime - startTime`); explicit options are applied; then
`success` is forced to `false` when an error is set or `routePass` is
`false` while `success` is still undefined; a falsy `testProgress` is
defaulted from the error/`routePass` state; and an undefined `success`
finally defaults to `true`. -/
def finalizeResult (r : BridgeOutput) (options : Option FinalizeOptions) (now : Int) :
    BridgeOutput :=
  let st := if r.timing.startTime == 0 then now else r.timing.startTime
  let success1 :=
    match options with
    | some o => match o.success with
      | some b => some b
      | none => r.success
    | none => r.success
  let testProgress1 :=
    match options with
    | some o => match o.testProgress with
      | some tp => some tp
      | none => r.testProgress
    | none => r.testProgress
  let routePass1 :=
    match options with
    | some o => match o.routePass with
      | some b => some b
      | none => r.routePass
    | none => r.routePass
  let success2 := if optStrTruthy r.error && success1.isNone then some false else success1
  let success3 := if routePass1 == some false && success2.isNone then some false else success2
  let testProgress2 :=
    if !(optStrTruthy testProgress1) then
      (if (match r.error with
           | some s => s == "Wallet connection failed"
           | none => false) then some "untested"
       else if routePass1.isSome then some "routeTested"
       else testProgress1)
    else testProgress1
  let success4 := if success3.isNone then some true else success3
  { r with success := success4, testProgress := testProgress2, routePass := routePass1,
           timing := { startTime := st, endTime := now, duration := now - st } }

/-- `AppPage.handleSimulateRpcResponse`: record the simulation RPC response,
report a top-level `error` field; otherwise extract the `result` section
(possibly a base64-encoded or JSON-encoded string, or nested under
`response.result`) and report a failure on a non-zero `code` (message from
`raw_log`/`message`/`Code:` fallback) or when the lowercased stringified
result contains `error`/`fail` (message from `raw_log`, `log`, or an
`error...}` fragment).  Returns `(isError, updated result)`. -/
def handleSimulateRpcResponse (r : BridgeOutput) (rpc : ApiResultIn) (now : Int) :
    Bool × BridgeOutput :=
  let record : RespRecord :=
    { endpoint := "/cosmos.tx.v1beta1.Service/Simulate", method := "POST"
      status := intOrZero rpc.status, success := rpc.success
      data := if jsTruthyOpt rpc.data then rpc.data else none
      timestamp := now, responseTime := intOrZero rpc.responseTime }
  let r := { r with apiResponses := aset r.apiResponses "simulate" record }
  if !(jsTruthyOpt rpc.data) then (false, r)
  else
    let responseData := (rpc.data).getD .null
    match getField responseData "error" with
    | some errVal =>
      if jsTruthy errVal then
        let errorMessage :=
          if jsTypeof errVal == "object" then stringify errVal else jsDisplay errVal
        (true, { r with error := some ("Transaction simulation failed: " ++ errorMessage) })
      else
        simulateResultCheck r responseData
    | none => simulateResultCheck r responseData
where
  /-- The `result`-section extraction and error scan (source lines 645-715). -/
  simulateResultCheck (r : BridgeOutput) (responseData : JsonVal) : Bool × BridgeOutput :=
    let simulateResult : Option JsonVal :=
      match getField responseData "result" with
      | some rv =>
        if jsTruthy rv then
          match rv with
          | .str s =>
            if isBase64Shaped s then
              match atob s with
              | some decoded =>
                (match parseJson decoded with
                 | some parsed => some parsed
                 | none => some (.str decoded))
              | none => some (.str s)
            else
              (match parseJson s with
               | some parsed => some parsed
               | none => some (.str s))
          | _ => some rv
        else
          (match getField responseData "response" with
           | some respVal =>
             if jsTruthy respVal && jsTruthyOpt (getField respVal "result") then
               getField respVal "result"
             else none
           | none => none)
      | none =>
        (match getField responseData "response" with
         | some respVal =>
           if jsTruthy respVal && jsTruthyOpt (getField respVal "result") then
             getField respVal "result"
           else none
         | none => none)
    match simulateResult with
    | none => (false, r)
    | some sr =>
      if !(jsTruthy sr) then (false, r)
      else
        let codeNonZero :=
          match getField sr "code" with
          | some (.num 0) => false
          | some _ => true
          | none => false
        if codeNonZero then
          let errorMessage :=
            if jsTruthyOpt (getField sr "raw_log") then jsDisplayOpt (getField sr "raw_log")
            else if jsTruthyOpt (getField sr "message") then jsDisplayOpt (getField sr "message")
            else "Code: " ++ jsDisplayOpt (getField sr "code")
          (true, { r with error := some ("Transaction simulation failed: " ++ errorMessage) })
        else
          let resultString := strToLower (stringify sr)
          if hasSubStr resultString "error" || hasSubStr resultString "fail" then
            let errorMessage :=
              if jsTruthyOpt (getField sr "raw_log") then jsDisplayOpt (getField sr "raw_log")
              else if jsTruthyOpt (getField sr "log") then jsDisplayOpt (getField sr "log")
              else
                match errorFragment resultString.data with
                | some frag => frag
                | none => "Unknown error"
            (true, { r with error := some ("Transaction simulation failed: " ++ errorMessage) })
          else (false, r)

/-- The simulation-failure update of `AppPage.previewAndSubmitRoute`
(lines 583-586): route passed, signature test failed. -/
def simulateFailureUpdate (r : BridgeOutput) : BridgeOutput :=
  { r with testProgress := some "SignTested", routePass := some true, success := some false }

/-- The finalization `performBridgeOperation` applies when
`previewAndSubmitRoute` returns `false` (lines 184-191):
`{success:false, testProgress:'routeTested', routePass:false}`. -/
def previewSubmitFailFinalize (r : BridgeOutput) (now : Int) : BridgeOutput :=
  finalizeResult r (some { success := some false, testProgress := some "routeTested",
                           routePass := some false }) now

/-- Screenshot path as pushed onto `result.screenshots`. -/
def ssPath (taskId name : String) : String :=
  "screenshots/" ++ name ++ "-task-" ++ taskId ++ ".png"

/-- The result object as created at the top of `performBridgeOperation`:
`success: false`, `testProgress: 'untested'`, timing started, empty
screenshot and api-response collections. -/
def initialBridgeOutput (t0 : Int) : BridgeOutput :=
  { success := some false, transactionHash := none, error := none
    testProgress := some "untested", routePass := none, apiResponses := []
    timing := { startTime := t0, endTime := 0, duration := 0 }, screenshots := [] }

/-- The behaviour of the collaborator calls and pipeline stages invoked by
`performBridgeOperation`, as oracles: each stage receives the result object
and returns it (with whatever mutations the stage made before finishing or
throwing) together with either its return value or a thrown error. -/
structure PipelineEnv where
  screenshotStart : Except JsError Unit
  setupWallet : BridgeOutput → BridgeOutput × Except JsError Bool
  setupBridgeTx : BridgeOutput → BridgeOutput × Except JsError Bool
  processAmountRoute : BridgeOutput → BridgeOutput × Except JsError Bool
  selectRoutePreview : BridgeOutput → BridgeOutput × Except JsError Unit
  previewSubmit : BridgeOutput → BridgeOutput × Except JsError Bool
  handleTxConfirm : BridgeOutput → BridgeOutput × Except JsError Bool
  screenshotError : Except JsError Unit

/-- The `catch` block of `performBridgeOperation` (lines 211-231): record the
thrown error's message, take the error screenshot (a collaborator call made
outside any try, so its own failure propagates), then finalize with
`success:false` and the progress recorded so far. -/
def runCatch (env : PipelineEnv) (taskId : String) (r : BridgeOutput) (e : JsError)
    (tEnd : Int) : Except JsError BridgeOutput :=
  let r := { r with error := some e.message }
  match env.screenshotError with
  | .error e2 => .error e2
  | .ok _ =>
    let r := { r with screenshots := r.screenshots ++ [ssPath taskId "bridge-operation-error"] }
    let opts : FinalizeOptions :=
      { success := some false
        testProgress := if optStrTruthy r.testProgress then r.testProgress else none
        routePass := r.routePass }
    .ok (finalizeResult r (some opts) tEnd)

/-- Stage 6 of `performBridgeOperation` (lines 193-210): transaction
confirmation; a `false` return finalizes with `SignTested`/`routePass:true`,
a `true` return finalizes the successful operation. -/
def pipelineStage6 (env : PipelineEnv) (taskId : String) (tEnd : Int) (r6 : BridgeOutput) :
    Except JsError BridgeOutput :=
  match env.handleTxConfirm r6 with
  | (r7, .error e) => runCatch env taskId r7 e tEnd
  | (r7, .ok false) =>
    .ok (finalizeResult r7
      (some { success := some false, testProgress := some "SignTested",
              routePass := some true }) tEnd)
  | (r7, .ok true) =>
    .ok (finalizeResult r7
      (some { success := some true, testProgress := some "SignTested",
              routePass := some true }) tEnd)

/-- Stage 5 of `performBridgeOperation` (lines 183-191): preview and submit;
a `false` return finalizes with `routeTested`/`routePass:false`. -/
def pipelineStage5 (env : PipelineEnv) (taskId : String) (tEnd : Int) (r5 : BridgeOutput) :
    Except JsError BridgeOutput :=
  match env.previewSubmit r5 with
  | (r6, .error e) => runCatch env taskId r6 e tEnd
  | (r6, .ok false) => .ok (previewSubmitFailFinalize r6 tEnd)
  | (r6, .ok true) => pipelineStage6 env taskId tEnd r6

/-- Stage 4 of `performBridgeOperation` (line 181): route-type selection and
preview extraction (no failure return of its own). -/
def pipelineStage4 (env : PipelineEnv) (taskId : String) (tEnd : Int) (r4 : BridgeOutput) :
    Except JsError BridgeOutput :=
  match env.selectRoutePreview r4 with
  | (r5, .error e) => runCatch env taskId r5 e tEnd
  | (r5, .ok _) => pipelineStage5 env taskId tEnd r5

/-- Stage 3 of `performBridgeOperation` (lines 170-178): amount entry and
route monitoring; a `false` return finalizes with
`routeTested`/`routePass:false`. -/
def pipelineStage3 (env : PipelineEnv) (taskId : String) (tEnd : Int) (r3 : BridgeOutput) :
    Except JsError BridgeOutput :=
  match env.processAmountRoute r3 with
  | (r4, .error e) => runCatch env taskId r4 e tEnd
  | (r4, .ok false) =>
    .ok (finalizeResult r4
      (some { success := some false, testProgress := some "routeTested",
              routePass := some false }) tEnd)
  | (r4, .ok true) => pipelineStage4 env taskId tEnd r4

/-- Stage 2 of `performBridgeOperation` (lines 161-168): bridge-transaction
configuration; a `false` return finalizes with `untested`. -/
def pipelineStage2 (env : PipelineEnv) (taskId : String) (tEnd : Int) (r2 : BridgeOutput) :
    Except JsError BridgeOutput :=
  match env.setupBridgeTx r2 with
  | (r3, .error e) => runCatch env taskId r3 e tEnd
  | (r3, .ok false) =>
    .ok (finalizeResult r3
      (some { success := some false, testProgress := some "untested",
              routePass := none }) tEnd)
  | (r3, .ok true) => pipelineStage3 env taskId tEnd r3

/-- Stage 1 of `performBridgeOperation` (lines 152-159): wallet connection;
a `false` return finalizes with `untested`. -/
def pipelineStage1 (env : PipelineEnv) (taskId : String) (tEnd : Int) (r1 : BridgeOutput) :
    Except JsError BridgeOutput :=
  match env.setupWallet r1 with
  | (r2, .error e) => runCatch env taskId r2 e tEnd
  | (r2, .ok false) =>
    .ok (finalizeResult r2
      (some { success := some false, testProgress := some "untested",
              routePass := none }) tEnd)
  | (r2, .ok true) => pipelineStage2 env taskId tEnd r2

/-- The control flow of `AppPage.performBridgeOperation` (lines 121-232):
create the result object, take the starting screenshot, then run the six
pipeline stages in order (each stage function above finalizes early on a
stage failure); any value thrown inside the try block transfers to
`runCatch`. -/
def performBridgeOperation (env : PipelineEnv) (taskId : String) (t0 tEnd : Int) :
    Except JsError BridgeOutput :=
  let r0 := initialBridgeOutput t0
  match env.screenshotStart with
  | .error e => runCatch env taskId r0 e tEnd
  | .ok _ =>
    pipelineStage1 env taskId tEnd
      { r0 with screenshots := r0.screenshots ++ [ssPath taskId "bridge-operation-start"] }

/-- All six stage oracles leave `result.timing` untouched, as the source
stages do (only `finalizeResult` writes timing). -/
def stagesPreserveTiming (env : PipelineEnv) : Prop :=
  (∀ r, ((env.setupWallet r).1).timing = r.timing) ∧
  (∀ r, ((env.setupBridgeTx r).1).timing = r.timing) ∧
  (∀ r, ((env.processAmountRoute r).1).timing = r.timing) ∧
  (∀ r, ((env.selectRoutePreview r).1).timing = r.timing) ∧
  (∀ r, ((env.previewSubmit r).1).timing = r.timing) ∧
  (∀ r, ((env.handleTxConfirm r).1).timing = r.timing)


theorem lookup_adelete {ν : Type} (l : List (String × ν)) (k : String) :
    List.lookup k (adelete l k) = none := by
  induction l with
  | nil => rfl
  | cons p t ih =>
    by_cases h : p.1 = k
    · have hb : (p.1 == k) = true := by simpa using h
      simpa [adelete, List.filter_cons, hb] using ih
    · have hb : (p.1 == k) = false := by simpa using h
      have hk : (k == p.1) = false := by
        simp only [beq_eq_false_iff_ne]
        exact fun hkk => h hkk.symm
      simp only [adelete, List.filter_cons, hb, Bool.not_false, if_pos rfl]
      simp only [List.lookup, hk]
      simpa [adelete] using ih


theorem adelete_of_keys_ne {ν : Type} (l : List (String × ν)) (k : String)
    (h : ∀ p ∈ l, p.1 ≠ k) : adelete l k = l := by
  induction l with
  | nil => rfl
  | cons p t ih =>
    have hp : (p.1 == k) = false := by simpa using h p (by simp)
    have ht := ih (fun q hq => h q (by simp [hq]))
    simp only [adelete, List.filter_cons, hp] at ht ⊢
    simp [ht]

theorem length_adelete {ν : Type} (l : List (String × ν)) (k : String) (c : ν)
    (hnodup : (l.map Prod.fst).Nodup) (hmem : List.lookup k l = some c) :
    (adelete l k).length + 1 = l.length := by
  induction l with
  | nil => simp [List.lookup] at hmem
  | cons p t ih =>
    rw [List.map_cons, List.nodup_cons] at hnodup
    by_cases h : p.1 = k
    · have hnot : ∀ q ∈ t, q.1 ≠ k := by
        intro q hq hqk
        exact hnodup.1 (by rw [h, ← hqk]; exact List.mem_map_of_mem Prod.fst hq)
      have hb : (p.1 == k) = true := by simpa using h
      have ht := adelete_of_keys_ne t k hnot
      simp only [adelete, List.filter_cons, hb] at ht ⊢
      simp [ht]
    · have hb : (p.1 == k) = false := by simpa using h
      have hk : (k == p.1) = false := by
        simp only [beq_eq_false_iff_ne]
        exact fun hkk => h hkk.symm
      have hmem' : List.lookup k t = some c := by
        simp only [List.lookup, hk] at hmem
        exact hmem
      have hlen := ih hnodup.2 hmem'
      simp only [adelete, List.filter_cons, hb] at hlen ⊢
      simp only [Bool.not_false, if_true, List.length_cons] at hlen ⊢
      simp at hlen ⊢
      omega

theorem lookup_aset_ne {ν : Type} (l : List (String × ν)) (k k2 : String) (v : ν)
    (h : k ≠ k2) : List.lookup k (aset l k2 v) = List.lookup k l := by
  induction l with
  | nil =>
    have hb : (k == k2) = false := by simpa using h
    simp [aset, List.lookup, hb]
  | cons p t ih =>
    by_cases hp : p.1 = k2
    · have hb : (p.1 == k2) = true := by simpa using hp
      have hk : (k == k2) = false := by simpa using h
      have hk2 : (k == p.1) = false := by
        simp only [beq_eq_false_iff_ne]
        exact fun hkk => h (hkk.trans hp)
      simp [aset, hb, List.lookup, hk, hk2]
    · have hb : (p.1 == k2) = false := by simpa using hp
      simp only [aset, hb, if_false, List.lookup]
      cases hkp : (k == p.1) with
      | true => rfl
      | false => exact ih

theorem isPrefixOf_self (l : List Char) : l.isPrefixOf l = true := by
  induction l with
  | nil => rfl
  | cons c t ih => simp [List.isPrefixOf, ih]

theorem hasSubCh_append_self (a t : List Char) : hasSubCh (a ++ t) t = true := by
  induction a with
  | nil =>
    cases t with
    | nil => rfl
    | cons c r => simp [hasSubCh, isPrefixOf_self]
  | cons c r ih =>
    simp only [List.cons_append, hasSubCh]
    have : r.append t = r ++ t := rfl
    rw [this, ih]
    simp

theorem hasSubStr_append_self (a t : String) : hasSubStr (a ++ t) t = true := by
  have hdata : (a ++ t).data = a.data ++ t.data := String.data_append a t
  simp [hasSubStr, hdata, hasSubCh_append_self]


theorem settleStep_true_flags (ot : Bool) (s : ControllerFlags) (e : MonitorEvent)
    (h : (settleStep ot s e).2 = true) :
    (s.isResolved || s.isRejected) = false ∧
    ((settleStep ot s e).1.isResolved || (settleStep ot s e).1.isRejected) = true := by
  cases e <;> simp only [settleStep] at h ⊢ <;>
    first
      | (split at h <;> split <;> simp_all)
      | simp_all

theorem settleStep_false_flags (ot : Bool) (s : ControllerFlags) (e : MonitorEvent)
    (h : (settleStep ot s e).2 = false) :
    (settleStep ot s e).1.isResolved = s.isResolved ∧
    (settleStep ot s e).1.isRejected = s.isRejected := by
  cases e <;> simp only [settleStep] at h ⊢ <;>
    first
      | (split at h <;> split <;> simp_all)
      | simp_all

theorem settleStep_not_both (ot : Bool) (s : ControllerFlags) (e : MonitorEvent)
    (h : (s.isResolved && s.isRejected) = false) :
    ((settleStep ot s e).1.isResolved && (settleStep ot s e).1.isRejected) = false := by
  cases e <;> simp only [settleStep] <;>
    first
      | (split <;> simp_all)
      | simp_all

theorem runEvents_settle_bound (ot : Bool) (es : List MonitorEvent) :
    ∀ s : ControllerFlags,
      (runEvents ot s es).2 ≤ (if s.isResolved || s.isRejected then 0 else 1) := by
  induction es with
  | nil => intro s; simp [runEvents]
  | cons e es ih =>
    intro s
    simp only [runEvents]
    cases hb : (settleStep ot s e).2 with
    | true =>
      obtain ⟨hpend, hsettled⟩ := settleStep_true_flags ot s e hb
      have hrest := ih (settleStep ot s e).1
      rw [hsettled] at hrest
      simp only [if_true] at hrest
      simp [hpend]
      omega
    | false =>
      obtain ⟨hres, hrej⟩ := settleStep_false_flags ot s e hb
      have hrest := ih (settleStep ot s e).1
      rw [hres, hrej] at hrest
      simpa using hrest

theorem runEvents_not_both (ot : Bool) (es : List MonitorEvent) :
    ∀ s : ControllerFlags, (s.isResolved && s.isRejected) = false →
      ((runEvents ot s es).1.isResolved && (runEvents ot s es).1.isRejected) = false := by
  induction es with
  | nil => intro s h; simpa [runEvents] using h
  | cons e es ih =>
    intro s h
    simp only [runEvents]
    exact ih (settleStep ot s e).1 (settleStep_not_both ot s e h)

/-- C1.  Across any interleaving of traffic-event callbacks, Playwright
waitForResponse completions/failures, timeout-timer firings and registry
cleanup, a monitor's promise controller is settled at most once: starting
from the Pending state of a fresh registration, the number of resolve/reject
commits over any event sequence is at most 1, and the `isResolved` and
`isRejected` marks are never both set, for both one-time and continuous
monitors. -/
theorem monitor_promise_settled_at_most_once (ot : Bool) (es : List MonitorEvent) :
    (runEvents ot initController es).2 ≤ 1 ∧
    ((runEvents ot initController es).1.isResolved &&
      (runEvents ot initController es).1.isRejected) = false := by
  constructor
  · have h := runEvents_settle_bound ot es initController
    simpa [initController] using h
  · exact runEvents_not_both ot es initController (by simp [initController])

/-- C2.  For a registered monitor id, `waitForResponse` removes the monitor
on every exit path: whatever the race outcome (captured response, timeout or
error), the returned registry has no entry for the id in any of the
promise-controller, start-time, path, options and RPC-method maps, the
monitor's timeout timer handle is cleared, and the active-monitor count
strictly decreases by one. -/
theorem waitForResponse_always_cleans_up (reg : Registry) (id : String)
    (outcome : WaitOutcome) (now : Int) (c : Controller)
    (hreg : List.lookup id reg.monitorPromises = some c)
    (hnodup : (reg.monitorPromises.map Prod.fst).Nodup) :
    List.lookup id (waitForResponse reg id outcome now).2.monitorPromises = none ∧
    List.lookup id (waitForResponse reg id outcome now).2.monitorStartTimes = none ∧
    List.lookup id (waitForResponse reg id outcome now).2.monitorPaths = none ∧
    List.lookup id (waitForResponse reg id outcome now).2.monitorOptions = none ∧
    List.lookup id (waitForResponse reg id outcome now).2.monitorMethods = none ∧
    (waitForResponse reg id outcome now).2.monitorPromises.length + 1 =
      reg.monitorPromises.length ∧
    (∀ tid, c.timeoutId = some tid →
      tid ∉ (waitForResponse reg id outcome now).2.activeTimers) := by
  have hclean : (waitForResponse reg id outcome now).2 = cleanupMonitor reg id := by
    cases outcome <;> simp [waitForResponse, hreg]
  rw [hclean]
  refine ⟨lookup_adelete _ id, lookup_adelete _ id, lookup_adelete _ id,
          lookup_adelete _ id, lookup_adelete _ id,
          length_adelete _ id c hnodup hreg, ?_⟩
  intro tid htid hmem
  simp only [cleanupMonitor, hreg, htid] at hmem
  have := List.mem_filter.mp hmem
  simp at this

theorem waitForResponse_always_cleans_up_witness :
    let reg : Registry := ⟨[("route_m", ⟨false, false, some 7⟩)], [("route_m", 100)],
      [("route_m", "route")], [("route_m", ⟨true, false, 5000, true, true⟩)], [], [7]⟩
    let out := WaitOutcome.failed ⟨"Waiting for response timed out (5000ms)", true⟩
    List.lookup "route_m" (waitForResponse reg "route_m" out 2100).2.monitorPromises = none ∧
    List.lookup "route_m" (waitForResponse reg "route_m" out 2100).2.monitorPaths = none ∧
    (waitForResponse reg "route_m" out 2100).2.monitorPromises.length + 1 =
      reg.monitorPromises.length ∧
    7 ∉ (waitForResponse reg "route_m" out 2100).2.activeTimers := by
  intro reg out
  have h := waitForResponse_always_cleans_up reg "route_m" out 2100
    ⟨false, false, some 7⟩ rfl (by decide)
  exact ⟨h.1, h.2.2.1, h.2.2.2.2.2.1, h.2.2.2.2.2.2 7 rfl⟩

/-- C6.  Whenever the race inside `waitForResponse` for a registered monitor
ends with a timeout rejection (the monitor's own timer and the external wait
timer both reject with `isTimeout` set), `waitForResponse` returns a result
record rather than throwing: `success = false`, `data = null`,
`timedOut = true`, and the timeout message in `error`. -/
theorem waitForResponse_timeout_result (reg : Registry) (id : String) (e : JsError)
    (now : Int) (c : Controller)
    (hreg : List.lookup id reg.monitorPromises = some c)
    (htimeout : e.isTimeout = true) (hmsg : e.message ≠ "") :
    (waitForResponse reg id (WaitOutcome.failed e) now).1.success = false ∧
    (waitForResponse reg id (WaitOutcome.failed e) now).1.data = none ∧
    (waitForResponse reg id (WaitOutcome.failed e) now).1.timedOut = some true ∧
    (waitForResponse reg id (WaitOutcome.failed e) now).1.error = some e.message := by
  have hbe : (e.message == "") = false := by simpa using hmsg
  simp [waitForResponse, hreg, htimeout, hbe]

theorem waitForResponse_timeout_result_witness :
    let reg : Registry := ⟨[("sim_m", ⟨false, false, none⟩)], [("sim_m", 100)],
      [("sim_m", "Simulate")], [("sim_m", ⟨true, true, 15000, false, true⟩)],
      [("sim_m", "abci_query")], []⟩
    let e : JsError := ⟨"Monitor timed out (15000ms)", true⟩
    (waitForResponse reg "sim_m" (WaitOutcome.failed e) 15100).1.success = false ∧
    (waitForResponse reg "sim_m" (WaitOutcome.failed e) 15100).1.data = none ∧
    (waitForResponse reg "sim_m" (WaitOutcome.failed e) 15100).1.timedOut = some true ∧
    (waitForResponse reg "sim_m" (WaitOutcome.failed e) 15100).1.error =
      some "Monitor timed out (15000ms)" := by
  intro reg e
  exact waitForResponse_timeout_result reg "sim_m" e 15100 ⟨false, false, none⟩ rfl rfl
    (by decide)

/-- C10.  Calling `waitForResponse` with a monitor id that is not registered
returns immediately, for every race outcome, with `success = false`,
`data = null`, `responseTime = 0` and the "Monitor ... does not exist" error
message, with no field of the registry modified and nothing thrown. -/
theorem waitForResponse_missing_monitor (reg : Registry) (id : String)
    (outcome : WaitOutcome) (now : Int)
    (hreg : List.lookup id reg.monitorPromises = none) :
    waitForResponse reg id outcome now =
      ({ success := false, data := none, responseTime := 0
         error := some ("Monitor " ++ id ++ " does not exist")
         url := none, status := none, method := none, requestId := none,
         timedOut := none }, reg) := by
  cases outcome <;> simp [waitForResponse, hreg]

theorem waitForResponse_missing_monitor_witness :
    waitForResponse ⟨[], [], [], [], [], []⟩ "ghost_monitor"
      (WaitOutcome.failed ⟨"ignored", false⟩) 42 =
      ({ success := false, data := none, responseTime := 0
         error := some "Monitor ghost_monitor does not exist"
         url := none, status := none, method := none, requestId := none,
         timedOut := none }, ⟨[], [], [], [], [], []⟩) := by
  exact waitForResponse_missing_monitor ⟨[], [], [], [], [], []⟩ "ghost_monitor"
    (WaitOutcome.failed ⟨"ignored", false⟩) 42 rfl

/-- C3 counterexample.  A captured route result with `success = false`,
status 201 and the exact "no routes found" object body satisfies the claim's
trigger ("status 404 or success=false" with a matching body), yet
`handleRouteApiResponse` does not normalise it: the 201 branch is taken, no
error is set, the route is marked passed and the operation continues. -/
theorem handleRoute_noRoutes_at_201_not_normalized :
    let a : ApiResultIn :=
      ⟨false, some (.obj (.cons "code" (.num 5)
         (.cons "message" (.str "no routes found") .nil))), some 201, some "POST", some 50, none⟩
    noRoutesBody a.data = true ∧
    a.success = false ∧
    (handleRouteApiResponse (initialBridgeOutput 5) a 10).1 = false ∧
    (handleRouteApiResponse (initialBridgeOutput 5) a 10).2.error = none ∧
    (handleRouteApiResponse (initialBridgeOutput 5) a 10).2.routePass = some true := by
  exact ⟨rfl, rfl, rfl, rfl, rfl⟩

/-- C3 (amended).  If the captured route response has status 404 (or
`success = false`) and additionally a status other than 201, and its body is
the "no routes found" object or a string containing "no routes found", then
`handleRouteApiResponse` sets the error to the literal `"no routes found"`,
sets `testProgress` to `routeTested` and `routePass` to `false`, aborts, and
the pipeline's subsequent finalization yields `success = false`. -/
theorem handleRoute_noRoutes_normalized (r : BridgeOutput) (a : ApiResultIn) (now tEnd : Int)
    (htrigger : statusIs a.status 404 = true ∨ a.success = false)
    (h201 : statusIs a.status 201 = false)
    (hbody : noRoutesBody a.data = true) :
    (handleRouteApiResponse r a now).1 = true ∧
    (handleRouteApiResponse r a now).2.error = some "no routes found" ∧
    (handleRouteApiResponse r a now).2.testProgress = some "routeTested" ∧
    (handleRouteApiResponse r a now).2.routePass = some false ∧
    (finalizeResult (handleRouteApiResponse r a now).2
      (some ⟨some false, some "routeTested", some false⟩) tEnd).success = some false := by
  have hnr : hasNoRoutesFoundError a = true := by
    rcases htrigger with h | h
    · simp [hasNoRoutesFoundError, h, hbody]
    · simp [hasNoRoutesFoundError, h, hbody]
  refine ⟨?_, ?_, ?_, ?_, ?_⟩ <;>
    simp [handleRouteApiResponse, h201, hnr, finalizeResult, optStrTruthy]

theorem handleRoute_noRoutes_normalized_witness :
    let a : ApiResultIn :=
      ⟨true, some (.obj (.cons "code" (.num 5)
         (.cons "message" (.str "no routes found") .nil))), some 404, some "POST", some 50, none⟩
    (handleRouteApiResponse (initialBridgeOutput 5) a 10).1 = true ∧
    (handleRouteApiResponse (initialBridgeOutput 5) a 10).2.error = some "no routes found" ∧
    (handleRouteApiResponse (initialBridgeOutput 5) a 10).2.testProgress = some "routeTested" ∧
    (handleRouteApiResponse (initialBridgeOutput 5) a 10).2.routePass = some false ∧
    (finalizeResult (handleRouteApiResponse (initialBridgeOutput 5) a 10).2
      (some ⟨some false, some "routeTested", some false⟩) 900).success = some false := by
  intro a
  exact handleRoute_noRoutes_normalized (initialBridgeOutput 5) a 10 900
    (Or.inl rfl) rfl rfl

/-- C5 counterexample.  A 201 route response whose captured data is a string
has the substring "Error" in its stringified body, yet
`handleRouteApiResponse` performs no scan (the scan requires object-typed
data): it neither sets an error nor aborts, and marks the route passed. -/
theorem handleRoute_201_string_body_not_scanned :
    let a : ApiResultIn :=
      ⟨true, some (.str "Error: something went wrong"), some 201, some "POST", some 40, none⟩
    hasSubStr (stringify (.str "Error: something went wrong")) "Error" = true ∧
    (handleRouteApiResponse (initialBridgeOutput 5) a 10).1 = false ∧
    (handleRouteApiResponse (initialBridgeOutput 5) a 10).2.error = none ∧
    (handleRouteApiResponse (initialBridgeOutput 5) a 10).2.routePass = some true := by
  exact ⟨rfl, rfl, rfl, rfl⟩

/-- C5 (amended).  For a route response captured with status 201 whose data
is a truthy value of `typeof` "object" (a non-null object or array),
`handleRouteApiResponse` scans the stringified body for the substrings
`"error"`/`"Error"`; when one occurs it sets the error to that stringified
body, sets `testProgress` to `routeTested`, sets `routePass` to `false` and
aborts despite the 2xx status.  String-typed bodies are not scanned. -/
theorem handleRoute_201_object_error_scan (r : BridgeOutput) (a : ApiResultIn)
    (now : Int) (d : JsonVal)
    (h201 : statusIs a.status 201 = true)
    (hd : a.data = some d)
    (htr : jsTruthy d = true)
    (hobj : jsTypeof d = "object")
    (hscan : (hasSubStr (stringify d) "error" || hasSubStr (stringify d) "Error") = true) :
    (handleRouteApiResponse r a now).1 = true ∧
    (handleRouteApiResponse r a now).2.error = some (stringify d) ∧
    (handleRouteApiResponse r a now).2.testProgress = some "routeTested" ∧
    (handleRouteApiResponse r a now).2.routePass = some false := by
  refine ⟨?_, ?_, ?_, ?_⟩ <;>
    simp [handleRouteApiResponse, h201, hd, jsTruthyOpt, htr, jsTypeofOpt, hobj, hscan]

theorem handleRoute_201_object_error_scan_witness :
    let d : JsonVal := .obj (.cons "msg" (.str "internal error occurred") .nil)
    let a : ApiResultIn := ⟨true, some d, some 201, some "POST", some 40, none⟩
    (handleRouteApiResponse (initialBridgeOutput 5) a 10).1 = true ∧
    (handleRouteApiResponse (initialBridgeOutput 5) a 10).2.error = some (stringify d) ∧
    (handleRouteApiResponse (initialBridgeOutput 5) a 10).2.testProgress = some "routeTested" ∧
    (handleRouteApiResponse (initialBridgeOutput 5) a 10).2.routePass = some false := by
  intro d a
  exact handleRoute_201_object_error_scan (initialBridgeOutput 5) a 10 d rfl rfl rfl rfl rfl

/-- C4 counterexample.  A POST request whose body is not parseable JSON and
whose URL matches a registered monitor's rule (partial match on "route") is
not recorded into that monitor's private log by the request listener, while
the same URL arriving as a non-POST request is recorded — refuting the claim
that malformed-JSON POSTs fall through to plain URL matching. -/
theorem malformed_post_not_url_matched :
    let paths : List (String × String) := [("m1", "route")]
    let opts : List (String × MonitorOptions) := [("m1", ⟨true, false, 5000, true, true⟩)]
    let cap : List (String × List CapturedReqEntry) := [("all", []), ("m1", [])]
    pathMatches "https://api.example.com/v2/fungible/route" "route"
      ⟨true, false, 5000, true, true⟩ = true ∧
    List.lookup "m1" (requestListenerStep paths opts [] cap
      ⟨"https://api.example.com/v2/fungible/route", "POST", some "\x7bbad"⟩ 9) = some [] ∧
    List.lookup "m1" (requestListenerStep paths opts [] cap
      ⟨"https://api.example.com/v2/fungible/route", "GET", none⟩ 9) =
      some [⟨"https://api.example.com/v2/fungible/route", "GET", 9, none, none⟩] := by
  exact ⟨rfl, rfl, rfl⟩

/-- C4 (amended).  A POST request whose body is absent, empty or not
parseable as JSON is ignored by the request listener's monitor matching:
only the global "all" log records it, and every monitor's private log is
left exactly as it was — malformed bodies do not fall through to plain URL
matching (unlike non-POST requests, which are URL-matched). -/
theorem malformed_post_body_ignored
    (monitorPaths : List (String × String))
    (monitorOptions : List (String × MonitorOptions))
    (monitorMethods : List (String × String))
    (captured : List (String × List CapturedReqEntry))
    (url : String) (pd : Option String) (now : Int) (mid : String)
    (hpd : ∀ s, pd = some s → parseJson s = none)
    (hmid : mid ≠ "all") :
    List.lookup mid (requestListenerStep monitorPaths monitorOptions monitorMethods captured
      ⟨url, "POST", pd⟩ now) = List.lookup mid captured := by
  cases pd with
  | none => simp [requestListenerStep, lookup_aset_ne _ _ _ _ hmid]
  | some s =>
    have hps := hpd s rfl
    by_cases hse : s = ""
    · simp [requestListenerStep, hse, lookup_aset_ne _ _ _ _ hmid]
    · have hbe : (s == "") = false := by simpa using hse
      simp [requestListenerStep, hbe, hps, lookup_aset_ne _ _ _ _ hmid]

theorem malformed_post_body_ignored_witness :
    let paths : List (String × String) := [("m1", "route")]
    let opts : List (String × MonitorOptions) := [("m1", ⟨true, false, 5000, true, true⟩)]
    let cap : List (String × List CapturedReqEntry) := [("all", []), ("m1", [])]
    List.lookup "m1" (requestListenerStep paths opts [] cap
      ⟨"https://api.example.com/v2/fungible/route", "POST", some "not json at all"⟩ 9) =
      List.lookup "m1" cap := by
  intro paths opts cap
  exact malformed_post_body_ignored paths opts [] cap
    "https://api.example.com/v2/fungible/route" (some "not json at all") 9 "m1"
    (fun s hs => by rw [← Option.some.inj hs]; rfl) (by decide)

/-- C8.  Evaluating the code on the "insufficient funds" simulation
response: `handleSimulateRpcResponse` reports the failure with the
`raw_log` message, `previewAndSubmitRoute` sets `SignTested`/`routePass =
true`/`success = false` and halts — but `performBridgeOperation`'s
failure-branch finalization (lines 184-191) then overwrites `testProgress`
to `routeTested` and `routePass` to `false`, so the finalized result
diverges from the claimed `SignTested`/`routePass = true` while keeping
`success = false` and the "insufficient funds" error. -/
theorem simulate_insufficient_funds_final_state :
    let simData : JsonVal := .obj (.cons "result"
      (.obj (.cons "code" (.num 5) (.cons "raw_log" (.str "insufficient funds") .nil))) .nil)
    let rpc : ApiResultIn := ⟨true, some simData, some 200, some "POST", some 120, none⟩
    let p := handleSimulateRpcResponse (initialBridgeOutput 5) rpc 100
    let final := previewSubmitFailFinalize (simulateFailureUpdate p.2) 900
    p.1 = true ∧
    p.2.error = some "Transaction simulation failed: insufficient funds" ∧
    (simulateFailureUpdate p.2).testProgress = some "SignTested" ∧
    (simulateFailureUpdate p.2).routePass = some true ∧
    (simulateFailureUpdate p.2).success = some false ∧
    final.success = some false ∧
    final.error = some "Transaction simulation failed: insufficient funds" ∧
    hasSubStr ((final.error).getD "") "insufficient funds" = true ∧
    final.testProgress = some "routeTested" ∧
    final.routePass = some false := by
  exact ⟨rfl, rfl, rfl, rfl, rfl, rfl, rfl, rfl, rfl, rfl⟩

/-- C9.  For a successfully captured broadcast RPC response:
no truthy `result` field means failure with "No result field in response";
`result.code === 0` means success, extracting a truthy `result.hash`;
any other code means failure whose error message embeds `result.log`
(defaulting to "Unknown error" when the log is absent); and on the
code-0/hash-"ABC123" shape `handleTransactionConfirmation` stores
`transactionHash = "ABC123"` and marks the operation successful. -/
theorem processBroadcast_spec (a : ApiResultIn) (d : JsonVal)
    (ha : a.success = true) (hd : a.data = some d) (htr : jsTruthy d = true) :
    (jsTruthyOpt (getField d "result") = false →
      processBroadcastResponse a =
        ⟨false, none, some "No result field in response"⟩) ∧
    (∀ rv, getField d "result" = some rv → jsTruthy rv = true →
      ((getField rv "code" = some (.num 0) →
         (processBroadcastResponse a).success = true ∧
         (processBroadcastResponse a).error = none ∧
         (∀ hv, getField rv "hash" = some hv → jsTruthy hv = true →
            (processBroadcastResponse a).hash = some hv)) ∧
       (isNumVal (getField rv "code") 0 = false →
         (processBroadcastResponse a).success = false ∧
         (processBroadcastResponse a).error =
           some ("Transaction failed (code=" ++ jsDisplayOpt (getField rv "code") ++ "): " ++
             (if jsTruthyOpt (getField rv "log") then jsDisplayOpt (getField rv "log")
              else "Unknown error")) ∧
         (∀ s, getField rv "log" = some (.str s) → s ≠ "" →
            hasSubStr (((processBroadcastResponse a).error).getD "") s = true)) ∧
       (∀ r : BridgeOutput, getField rv "code" = some (.num 0) →
          getField rv "hash" = some (.str "ABC123") →
          (applyBroadcastResult r a).1 = true ∧
          (applyBroadcastResult r a).2.transactionHash = some (.str "ABC123") ∧
          (applyBroadcastResult r a).2.success = some true))) := by
  have h1 : jsTruthyOpt a.data = true := by
    rw [hd]; simpa [jsTruthyOpt] using htr
  have hsd : jsTruthyOpt (some d) = true := by
    simpa [jsTruthyOpt] using htr
  constructor
  · intro hres
    simp [processBroadcastResponse, ha, h1, hd, hsd, hres]
  · intro rv hrv htrv
    have h2 : jsTruthyOpt (getField d "result") = true := by
      rw [hrv]; simpa [jsTruthyOpt] using htrv
    have hsr : jsTruthyOpt (some rv) = true := by
      simpa [jsTruthyOpt] using htrv
    refine ⟨?_, ?_, ?_⟩
    · intro hcode
      have hpb : processBroadcastResponse a =
          (if jsTruthyOpt (getField rv "hash") then
            ⟨true, getField rv "hash", none⟩
           else ⟨true, none, none⟩) := by
        simp [processBroadcastResponse, ha, h1, hd, hsd, hsr, h2, hrv, isNumVal, hcode]
      refine ⟨?_, ?_, ?_⟩
      · rw [hpb]; split <;> rfl
      · rw [hpb]; split <;> rfl
      · intro hv hhv htrhv
        have hth : jsTruthyOpt (getField rv "hash") = true := by
          rw [hhv]; simpa [jsTruthyOpt] using htrhv
        rw [hpb, if_pos hth, hhv]
    · intro hcode
      have hpb : processBroadcastResponse a =
          ⟨false, none,
            some ("Transaction failed (code=" ++ jsDisplayOpt (getField rv "code") ++ "): " ++
              (if jsTruthyOpt (getField rv "log") then jsDisplayOpt (getField rv "log")
               else "Unknown error"))⟩ := by
        simp [processBroadcastResponse, ha, h1, hd, hsd, hsr, h2, hrv, hcode]
      refine ⟨by rw [hpb], by rw [hpb], ?_⟩
      intro s hlog hs
      have htss : jsTruthyOpt (some (JsonVal.str s)) = true := by
        simpa [jsTruthyOpt, jsTruthy] using hs
      rw [hpb]
      simp only [hlog, htss, if_true, jsDisplayOpt, jsDisplay, Option.getD_some]
      exact hasSubStr_append_self _ s
    · intro r hcode hhash
      have hth : jsTruthyOpt (getField rv "hash") = true := by
        rw [hhash]; simp [jsTruthyOpt, jsTruthy]
      have hpb : processBroadcastResponse a = ⟨true, some (.str "ABC123"), none⟩ := by
        have habc : jsTruthyOpt (some (JsonVal.str "ABC123")) = true := rfl
        simp [processBroadcastResponse, ha, h1, hd, hsd, hsr, h2, hrv, isNumVal, hcode, hth,
          hhash, habc]
      refine ⟨?_, ?_, ?_⟩ <;>
        simp [applyBroadcastResult, ha, hpb, jsTruthy]

theorem processBroadcast_spec_witness :
    let rv : JsonVal := .obj (.cons "code" (.num 0) (.cons "hash" (.str "ABC123") .nil))
    let d : JsonVal := .obj (.cons "result" rv .nil)
    let a : ApiResultIn := ⟨true, some d, some 200, some "POST", some 90, none⟩
    (processBroadcastResponse a).success = true ∧
    (processBroadcastResponse a).hash = some (.str "ABC123") ∧
    (applyBroadcastResult (initialBridgeOutput 5) a).2.transactionHash =
      some (.str "ABC123") ∧
    (applyBroadcastResult (initialBridgeOutput 5) a).2.success = some true := by
  intro rv d a
  have h := processBroadcast_spec a d rfl rfl rfl
  have h2 := h.2 rv rfl rfl
  exact ⟨(h2.1 rfl).1, (h2.1 rfl).2.2 (.str "ABC123") rfl rfl,
    (h2.2.2 (initialBridgeOutput 5) rfl rfl).2.1,
    (h2.2.2 (initialBridgeOutput 5) rfl rfl).2.2⟩

theorem finalizeResult_error (r : BridgeOutput) (o : Option FinalizeOptions) (now : Int) :
    (finalizeResult r o now).error = r.error := rfl

theorem finalizeResult_screenshots (r : BridgeOutput) (o : Option FinalizeOptions) (now : Int) :
    (finalizeResult r o now).screenshots = r.screenshots := rfl

theorem finalizeResult_timing (r : BridgeOutput) (o : Option FinalizeOptions)
    (t0 now : Int) (hst : r.timing.startTime = t0) (ht0 : t0 ≠ 0) :
    (finalizeResult r o now).timing.endTime = now ∧
    (finalizeResult r o now).timing.duration = now - t0 := by
  have hne : (t0 == 0) = false := by simpa using ht0
  constructor <;> simp [finalizeResult, hst, hne]

/-- C7 counterexample.  When a pipeline stage throws and the error-path
screenshot collaborator also throws, the exception escapes
`performBridgeOperation` instead of a result record being returned —
refuting the claim that no exception from a collaborator call inside
`performBridgeOperation` ever propagates. -/
theorem performBridge_error_screenshot_escapes :
    let env : PipelineEnv :=
      { screenshotStart := .ok ()
        setupWallet := fun r => (r, .error ⟨"boom", false⟩)
        setupBridgeTx := fun r => (r, .ok true)
        processAmountRoute := fun r => (r, .ok true)
        selectRoutePreview := fun r => (r, .ok ())
        previewSubmit := fun r => (r, .ok true)
        handleTxConfirm := fun r => (r, .ok true)
        screenshotError := .error ⟨"screenshot failed", false⟩ }
    performBridgeOperation env "0" 5 10 = .error ⟨"screenshot failed", false⟩ := by
  intro env
  rfl

/-- C7 (amended).  Every exception thrown by a pipeline stage or collaborator
call inside the try block of `performBridgeOperation` is caught: provided
the error-path screenshot collaborator itself succeeds, the pipeline always
returns a finalized `BridgeOperationOutput` with `endTime` stamped and
`duration = endTime - startTime`, and the catch path records the thrown
message into `error` and appends the error screenshot.  (An exception from
the catch-block screenshot call itself still propagates — see the
counterexample.) -/
theorem performBridge_catches_stage_throws (env : PipelineEnv) (taskId : String)
    (t0 tEnd : Int)
    (hss : env.screenshotError = .ok ())
    (hp : stagesPreserveTiming env)
    (ht0 : t0 ≠ 0) :
    (∃ out, performBridgeOperation env taskId t0 tEnd = .ok out ∧
      out.timing.endTime = tEnd ∧ out.timing.duration = tEnd - t0) ∧
    (∀ r e, r.timing.startTime = t0 →
      ∃ out, runCatch env taskId r e tEnd = .ok out ∧
        out.error = some e.message ∧
        ssPath taskId "bridge-operation-error" ∈ out.screenshots ∧
        out.timing.endTime = tEnd ∧ out.timing.duration = tEnd - t0) := by
  obtain ⟨hp1, hp2, hp3, hp4, hp5, hp6⟩ := hp
  have hcatch : ∀ (r : BridgeOutput) (e : JsError), r.timing.startTime = t0 →
      ∃ out, runCatch env taskId r e tEnd = .ok out ∧
        out.error = some e.message ∧
        ssPath taskId "bridge-operation-error" ∈ out.screenshots ∧
        out.timing.endTime = tEnd ∧ out.timing.duration = tEnd - t0 := by
    intro r e hst
    refine ⟨finalizeResult
        { r with
            error := some e.message,
            screenshots := r.screenshots ++ [ssPath taskId "bridge-operation-error"] }
        (some { success := some false,
                testProgress := if optStrTruthy r.testProgress then r.testProgress else none,
                routePass := r.routePass }) tEnd, ?_, ?_, ?_, ?_, ?_⟩
    · unfold runCatch
      rw [hss]
    · rw [finalizeResult_error]
    · rw [finalizeResult_screenshots]
      simp
    · exact (finalizeResult_timing
        { r with
            error := some e.message,
            screenshots := r.screenshots ++ [ssPath taskId "bridge-operation-error"] }
        (some { success := some false,
                testProgress := if optStrTruthy r.testProgress then r.testProgress else none,
                routePass := r.routePass }) t0 tEnd hst ht0).1
    · exact (finalizeResult_timing
        { r with
            error := some e.message,
            screenshots := r.screenshots ++ [ssPath taskId "bridge-operation-error"] }
        (some { success := some false,
                testProgress := if optStrTruthy r.testProgress then r.testProgress else none,
                routePass := r.routePass }) t0 tEnd hst ht0).2
  have hcatch' : ∀ (r : BridgeOutput) (e : JsError), r.timing.startTime = t0 →
      ∃ out, runCatch env taskId r e tEnd = .ok out ∧
        out.timing.endTime = tEnd ∧ out.timing.duration = tEnd - t0 := by
    intro r e hst
    obtain ⟨out, h1, _, _, h4, h5⟩ := hcatch r e hst
    exact ⟨out, h1, h4, h5⟩
  have hstage6 : ∀ r : BridgeOutput, r.timing.startTime = t0 →
      ∃ out, pipelineStage6 env taskId tEnd r = .ok out ∧
        out.timing.endTime = tEnd ∧ out.timing.duration = tEnd - t0 := by
    intro r hst
    rcases hcall : env.handleTxConfirm r with ⟨r7, x7⟩
    have ht7 : r7.timing.startTime = t0 := by
      have hpp := hp6 r
      rw [hcall] at hpp
      rw [hpp]
      exact hst
    cases x7 with
    | error e =>
      simpa only [pipelineStage6, hcall] using hcatch' r7 e ht7
    | ok b =>
      cases b with
      | false =>
        refine ⟨finalizeResult r7
            (some { success := some false, testProgress := some "SignTested", routePass := some true }) tEnd, ?_, ?_, ?_⟩
        · simp only [pipelineStage6, hcall]
        · exact (finalizeResult_timing r7
            (some { success := some false, testProgress := some "SignTested", routePass := some true }) t0 tEnd ht7 ht0).1
        · exact (finalizeResult_timing r7
            (some { success := some false, testProgress := some "SignTested", routePass := some true }) t0 tEnd ht7 ht0).2
      | true =>
        refine ⟨finalizeResult r7
            (some { success := some true, testProgress := some "SignTested", routePass := some true }) tEnd, ?_, ?_, ?_⟩
        · simp only [pipelineStage6, hcall]
        · exact (finalizeResult_timing r7
            (some { success := some true, testProgress := some "SignTested", routePass := some true }) t0 tEnd ht7 ht0).1
        · exact (finalizeResult_timing r7
            (some { success := some true, testProgress := some "SignTested", routePass := some true }) t0 tEnd ht7 ht0).2
  have hstage5 : ∀ r : BridgeOutput, r.timing.startTime = t0 →
      ∃ out, pipelineStage5 env taskId tEnd r = .ok out ∧
        out.timing.endTime = tEnd ∧ out.timing.duration = tEnd - t0 := by
    intro r hst
    rcases hcall : env.previewSubmit r with ⟨r6, x6⟩
    have ht6 : r6.timing.startTime = t0 := by
      have hpp := hp5 r
      rw [hcall] at hpp
      rw [hpp]
      exact hst
    cases x6 with
    | error e =>
      simpa only [pipelineStage5, hcall] using hcatch' r6 e ht6
    | ok b =>
      cases b with
      | false =>
        refine ⟨previewSubmitFailFinalize r6 tEnd, ?_, ?_, ?_⟩
        · simp only [pipelineStage5, hcall]
        · exact (finalizeResult_timing r6
            (some { success := some false, testProgress := some "routeTested",
                    routePass := some false }) t0 tEnd ht6 ht0).1
        · exact (finalizeResult_timing r6
            (some { success := some false, testProgress := some "routeTested",
                    routePass := some false }) t0 tEnd ht6 ht0).2
      | true =>
        simpa only [pipelineStage5, hcall] using hstage6 r6 ht6
  have hstage4 : ∀ r : BridgeOutput, r.timing.startTime = t0 →
      ∃ out, pipelineStage4 env taskId tEnd r = .ok out ∧
        out.timing.endTime = tEnd ∧ out.timing.duration = tEnd - t0 := by
    intro r hst
    rcases hcall : env.selectRoutePreview r with ⟨r5, x5⟩
    have ht5 : r5.timing.startTime = t0 := by
      have hpp := hp4 r
      rw [hcall] at hpp
      rw [hpp]
      exact hst
    cases x5 with
    | error e =>
      simpa only [pipelineStage4, hcall] using hcatch' r5 e ht5
    | ok u =>
      cases u
      simpa only [pipelineStage4, hcall] using hstage5 r5 ht5
  have hstage3 : ∀ r : BridgeOutput, r.timing.startTime = t0 →
      ∃ out, pipelineStage3 env taskId tEnd r = .ok out ∧
        out.timing.endTime = tEnd ∧ out.timing.duration = tEnd - t0 := by
    intro r hst
    rcases hcall : env.processAmountRoute r with ⟨r4, x4⟩
    have ht4 : r4.timing.startTime = t0 := by
      have hpp := hp3 r
      rw [hcall] at hpp
      rw [hpp]
      exact hst
    cases x4 with
    | error e =>
      simpa only [pipelineStage3, hcall] using hcatch' r4 e ht4
    | ok b =>
      cases b with
      | false =>
        refine ⟨finalizeResult r4
            (some { success := some false, testProgress := some "routeTested", routePass := some false }) tEnd, ?_, ?_, ?_⟩
        · simp only [pipelineStage3, hcall]
        · exact (finalizeResult_timing r4
            (some { success := some false, testProgress := some "routeTested", routePass := some false }) t0 tEnd ht4 ht0).1
        · exact (finalizeResult_timing r4
            (some { success := some false, testProgress := some "routeTested", routePass := some false }) t0 tEnd ht4 ht0).2
      | true =>
        simpa only [pipelineStage3, hcall] using hstage4 r4 ht4
  have hstage2 : ∀ r : BridgeOutput, r.timing.startTime = t0 →
      ∃ out, pipelineStage2 env taskId tEnd r = .ok out ∧
        out.timing.endTime = tEnd ∧ out.timing.duration = tEnd - t0 := by
    intro r hst
    rcases hcall : env.setupBridgeTx r with ⟨r3, x3⟩
    have ht3 : r3.timing.startTime = t0 := by
      have hpp := hp2 r
      rw [hcall] at hpp
      rw [hpp]
      exact hst
    cases x3 with
    | error e =>
      simpa only [pipelineStage2, hcall] using hcatch' r3 e ht3
    | ok b =>
      cases b with
      | false =>
        refine ⟨finalizeResult r3
            (some { success := some false, testProgress := some "untested", routePass := none }) tEnd, ?_, ?_, ?_⟩
        · simp only [pipelineStage2, hcall]
        · exact (finalizeResult_timing r3
            (some { success := some false, testProgress := some "untested", routePass := none }) t0 tEnd ht3 ht0).1
        · exact (finalizeResult_timing r3
            (some { success := some false, testProgress := some "untested", routePass := none }) t0 tEnd ht3 ht0).2
      | true =>
        simpa only [pipelineStage2, hcall] using hstage3 r3 ht3
  have hstage1 : ∀ r : BridgeOutput, r.timing.startTime = t0 →
      ∃ out, pipelineStage1 env taskId tEnd r = .ok out ∧
        out.timing.endTime = tEnd ∧ out.timing.duration = tEnd - t0 := by
    intro r hst
    rcases hcall : env.setupWallet r with ⟨r2, x2⟩
    have ht2 : r2.timing.startTime = t0 := by
      have hpp := hp1 r
      rw [hcall] at hpp
      rw [hpp]
      exact hst
    cases x2 with
    | error e =>
      simpa only [pipelineStage1, hcall] using hcatch' r2 e ht2
    | ok b =>
      cases b with
      | false =>
        refine ⟨finalizeResult r2
            (some { success := some false, testProgress := some "untested", routePass := none }) tEnd, ?_, ?_, ?_⟩
        · simp only [pipelineStage1, hcall]
        · exact (finalizeResult_timing r2
            (some { success := some false, testProgress := some "untested", routePass := none }) t0 tEnd ht2 ht0).1
        · exact (finalizeResult_timing r2
            (some { success := some false, testProgress := some "untested", routePass := none }) t0 tEnd ht2 ht0).2
      | true =>
        simpa only [pipelineStage1, hcall] using hstage2 r2 ht2
  refine ⟨?_, hcatch⟩
  unfold performBridgeOperation
  cases hs0 : env.screenshotStart with
  | error e => exact hcatch' _ e rfl
  | ok u =>
    cases u
    exact hstage1 _ rfl

theorem performBridge_catches_stage_throws_witness :
    let env : PipelineEnv :=
      { screenshotStart := .ok ()
        setupWallet := fun r => (r, .error ⟨"boom", false⟩)
        setupBridgeTx := fun r => (r, .ok true)
        processAmountRoute := fun r => (r, .ok true)
        selectRoutePreview := fun r => (r, .ok ())
        previewSubmit := fun r => (r, .ok true)
        handleTxConfirm := fun r => (r, .ok true)
        screenshotError := .ok () }
    ∃ out, performBridgeOperation env "0" 5 10 = .ok out ∧
      out.timing.endTime = 10 ∧ out.timing.duration = 10 - 5 := by
  intro env
  exact (performBridge_catches_stage_throws env "0" 5 10 rfl
    ⟨fun r => rfl, fun r => rfl, fun r => rfl, fun r => rfl, fun r => rfl, fun r => rfl⟩
    (by decide)).1
